import Mathlib

/-!
Verification development for the `bioinformatics-utilities` repository
(`gdc_data_collector.py` and `app.py`).

The Python source is shallowly embedded:

* `pd.read_table` tokenization (C parser, `header=None`) is `readTable`;
* the per-file frame construction and sample-id derivation of
  `create_methylation_db` (lines 99-119) is `buildFramesAux` / `derivedId`;
* the `pd.merge` loop (lines 124-131) is `mergeFrames` / `createMethylationDb`;
* `create_mapping_db` (lines 142-158), including Python's `str.rstrip`
  character-set semantics, is `createMappingDb` / `pyRstrip`;
* the query loop of `app.py`'s `results` container (lines 96-126) is
  `processRow` / `runQuery` over a `QueryDb` snapshot of the sqlite tables.

Strings are Lean `String`s (lists of characters); sqlite REAL values are
modelled as `Option ℚ` (with `none` for NULL/NaN); the sqlite database is a
record of optional tables (a `none` table has been dropped).
-/

namespace GDC

/-! ### Decimal numerals, character level

`str(i)` for a Python `int i ≥ 0` renders the decimal digits.  We embed it as
a fuel-based recursion (`natCharsAux`) so that it reduces in the kernel, and
prove a round-trip with a parser `charsToNatAux`, which yields injectivity. -/

def natCharsAux : Nat → Nat → List Char → List Char
  | 0, _, acc => acc
  | fuel + 1, n, acc =>
    if n < 10 then Nat.digitChar n :: acc
    else natCharsAux fuel (n / 10) (Nat.digitChar (n % 10) :: acc)

def natChars (n : Nat) : List Char :=
  natCharsAux (n + 1) n []

def digitStep (a : Nat) (c : Char) : Nat := 10 * a + (c.toNat - 48)

def charsToNatAux (a : Nat) (cs : List Char) : Nat := cs.foldl digitStep a

theorem natCharsAux_acc (fuel : Nat) :
    ∀ (n : Nat) (acc : List Char),
      natCharsAux fuel n acc = natCharsAux fuel n [] ++ acc := by
  induction fuel with
  | zero => intro n acc; simp [natCharsAux]
  | succ fuel ih =>
    intro n acc
    by_cases h : n < 10
    · simp [natCharsAux, h]
    · simp only [natCharsAux, h, if_false]
      rw [ih (n / 10) (Nat.digitChar (n % 10) :: acc),
          ih (n / 10) [Nat.digitChar (n % 10)]]
      simp

theorem natCharsAux_fuel (n : Nat) :
    ∀ (fuel₁ fuel₂ : Nat), n < fuel₁ → n < fuel₂ →
      natCharsAux fuel₁ n [] = natCharsAux fuel₂ n [] := by
  induction n using Nat.strong_induction_on with
  | _ n ih =>
    intro fuel₁ fuel₂ h₁ h₂
    match fuel₁, fuel₂ with
    | f₁ + 1, f₂ + 1 =>
      by_cases h : n < 10
      · simp [natCharsAux, h]
      · simp only [natCharsAux, h, if_false]
        rw [natCharsAux_acc f₁, natCharsAux_acc f₂]
        have hdiv : n / 10 < n := Nat.div_lt_self (by omega) (by omega)
        rw [ih (n / 10) hdiv f₁ (f₂ + 1) (by omega) (by omega)]
        rw [ih (n / 10) hdiv (f₂ + 1) f₂ (by omega) (by omega)]

theorem natChars_lt_ten {n : Nat} (h : n < 10) :
    natChars n = [Nat.digitChar n] := by
  simp [natChars, natCharsAux, h]

theorem natChars_ge_ten {n : Nat} (h : 10 ≤ n) :
    natChars n = natChars (n / 10) ++ [Nat.digitChar (n % 10)] := by
  have h10 : ¬ n < 10 := by omega
  have hdiv : n / 10 < n := Nat.div_lt_self (by omega) (by omega)
  have e1 : natChars n = natCharsAux n (n / 10) [Nat.digitChar (n % 10)] := by
    rw [natChars, natCharsAux, if_neg h10]
  rw [e1, natCharsAux_acc n,
      natCharsAux_fuel (n / 10) n (n / 10 + 1) hdiv (Nat.lt_succ_self _)]
  rfl

theorem charsToNatAux_append (xs : List Char) (c : Char) (a : Nat) :
    charsToNatAux a (xs ++ [c]) = 10 * charsToNatAux a xs + (c.toNat - 48) := by
  simp [charsToNatAux, List.foldl_append, digitStep]

theorem digitChar_toNat {d : Nat} (h : d < 10) : (Nat.digitChar d).toNat - 48 = d := by
  interval_cases d <;> decide

theorem charsToNat_natChars (n : Nat) : charsToNatAux 0 (natChars n) = n := by
  induction n using Nat.strong_induction_on with
  | _ n ih =>
    by_cases h : n < 10
    · rw [natChars_lt_ten h]
      simp only [charsToNatAux, List.foldl, digitStep]
      rw [digitChar_toNat h]
      omega
    · have h' : 10 ≤ n := by omega
      have hdiv : n / 10 < n := Nat.div_lt_self (by omega) (by omega)
      rw [natChars_ge_ten h', charsToNatAux_append, ih (n / 10) hdiv,
          digitChar_toNat (Nat.mod_lt n (by omega))]
      omega

theorem natChars_injective {m n : Nat} (h : natChars m = natChars n) : m = n := by
  have := charsToNat_natChars m
  rw [h, charsToNat_natChars n] at this
  omega

theorem natChars_mem {n : Nat} {c : Char} (h : c ∈ natChars n) :
    ∃ d, d < 10 ∧ c = Nat.digitChar d := by
  induction n using Nat.strong_induction_on with
  | _ n ih =>
    by_cases h10 : n < 10
    · rw [natChars_lt_ten h10] at h
      simp at h
      exact ⟨n, h10, h⟩
    · have h' : 10 ≤ n := by omega
      rw [natChars_ge_ten h'] at h
      rcases List.mem_append.mp h with h1 | h2
      · exact ih (n / 10) (Nat.div_lt_self (by omega) (by omega)) h1
      · simp at h2
        exact ⟨n % 10, Nat.mod_lt n (by omega), h2⟩

theorem natChars_not_underscore {n : Nat} {c : Char} (h : c ∈ natChars n) :
    c ≠ '_' := by
  obtain ⟨d, hd, rfl⟩ := natChars_mem h
  interval_cases d <;> decide

theorem natChars_not_hyphen {n : Nat} {c : Char} (h : c ∈ natChars n) :
    c ≠ '-' := by
  obtain ⟨d, hd, rfl⟩ := natChars_mem h
  interval_cases d <;> decide

/-! ### Generic list helpers -/

theorem takeWhile_append_stop (xs ys : List Char)
    (h : ∀ c ∈ xs, c ≠ '_') :
    (xs ++ '_' :: ys).takeWhile (fun c => c != '_') = xs := by
  induction xs with
  | nil => simp [List.takeWhile]
  | cons x xs ih =>
    have hx : x ≠ '_' := h x (by simp)
    simp only [List.cons_append, List.takeWhile]
    have : (x != '_') = true := by simpa using hx
    rw [this]
    simp only [List.cons.injEq, true_and]
    exact ih (fun c hc => h c (by simp [hc]))

theorem dropWhile_append_stop (xs ys : List Char)
    (h : ∀ c ∈ xs, c ≠ '_') :
    (xs ++ '_' :: ys).dropWhile (fun c => c != '_') = '_' :: ys := by
  induction xs with
  | nil => simp [List.dropWhile]
  | cons x xs ih =>
    have hx : x ≠ '_' := h x (by simp)
    simp only [List.cons_append, List.dropWhile]
    have : (x != '_') = true := by simpa using hx
    rw [this]
    exact ih (fun c hc => h c (by simp [hc]))

theorem map_id_of_fixed {α : Type} (f : α → α) :
    ∀ (l : List α), (∀ c ∈ l, f c = c) → l.map f = l := by
  intro l
  induction l with
  | nil => intro _; rfl
  | cons x xs ih =>
    intro h
    simp only [List.map]
    rw [h x (by simp), ih (fun c hc => h c (by simp [hc]))]

/-! ### Sample-id derivation (`create_methylation_db`, lines 112-114)

```python
file_name = Path(tcga_file).stem.split('.')[0]
patient_id = 'Patient' + str(i) + '-' + file_name
patient_id = patient_id.replace('-', '_')
```

`Path(...).stem.split('.')[0]` keeps everything before the first `'.'` of the
file's final path component; `.replace('-', '_')`, applied to a single-character
pattern, is a character map. -/

def sanitizeChar (c : Char) : Char := if c = '-' then '_' else c

def pyStem (fname : String) : String :=
  String.mk (fname.data.takeWhile (fun c => c != '.'))

def sampleIdChars (i : Nat) (base : List Char) : List Char :=
  ("Patient".data ++ natChars i ++ ['-'] ++ base).map sanitizeChar

def derivedId (i : Nat) (fname : String) : String :=
  String.mk (sampleIdChars i (pyStem fname).data)

/-- Inverse views used to show traceability: the run ordinal sits between the
literal `Patient` prefix and the first underscore, and the (sanitized) base
name sits after that underscore. -/
def extractIdx (id : String) : Nat :=
  charsToNatAux 0 ((id.data.drop 7).takeWhile (fun c => c != '_'))

def extractBase (id : String) : List Char :=
  ((id.data.drop 7).dropWhile (fun c => c != '_')).drop 1

theorem sampleIdChars_decompose (i : Nat) (base : List Char) :
    sampleIdChars i base =
      "Patient".data ++ natChars i ++ '_' :: base.map sanitizeChar := by
  simp only [sampleIdChars, List.map_append]
  have h1 : "Patient".data.map sanitizeChar = "Patient".data := by decide
  have h2 : (natChars i).map sanitizeChar = natChars i :=
    map_id_of_fixed sanitizeChar (natChars i)
      (fun c hc => by simp [sanitizeChar, natChars_not_hyphen hc])
  rw [h1, h2]
  simp [sanitizeChar]

theorem extractIdx_derivedId (i : Nat) (fname : String) :
    extractIdx (derivedId i fname) = i := by
  simp only [extractIdx, derivedId, sampleIdChars_decompose]
  have h7 : (7 : Nat) = "Patient".data.length := by decide
  rw [h7, List.append_assoc, List.drop_left]
  have := takeWhile_append_stop (natChars i) ((pyStem fname).data.map sanitizeChar)
    (fun c hc => natChars_not_underscore hc)
  simp only [List.cons_append] at this ⊢
  rw [this, charsToNat_natChars]

theorem extractBase_derivedId (i : Nat) (fname : String) :
    extractBase (derivedId i fname) = (pyStem fname).data.map sanitizeChar := by
  simp only [extractBase, derivedId, sampleIdChars_decompose]
  have h7 : (7 : Nat) = "Patient".data.length := by decide
  rw [h7, List.append_assoc, List.drop_left]
  have := dropWhile_append_stop (natChars i) ((pyStem fname).data.map sanitizeChar)
    (fun c hc => natChars_not_underscore hc)
  simp only [List.cons_append] at this ⊢
  rw [this]
  rfl

theorem derivedId_ne {i j : Nat} (f1 f2 : String) (h : i ≠ j) :
    derivedId i f1 ≠ derivedId j f2 := by
  intro heq
  exact h (by rw [← extractIdx_derivedId i f1, heq, extractIdx_derivedId])

theorem derivedId_no_hyphen (i : Nat) (fname : String) :
    '-' ∉ (derivedId i fname).data := by
  intro hmem
  simp only [derivedId] at hmem
  have : ∀ c ∈ sampleIdChars i (pyStem fname).data, c ≠ '-' := by
    intro c hc
    simp only [sampleIdChars, List.mem_map] at hc
    obtain ⟨c', _, rfl⟩ := hc
    simp only [sanitizeChar]
    by_cases h' : c' = '-' <;> simp [h']
  exact this '-' hmem rfl

theorem derivedId_head (i : Nat) (fname : String) :
    (derivedId i fname).data.head? = some 'P' := by
  simp [derivedId, sampleIdChars_decompose]

/-! ### Measurement-file loading (`pd.read_table`, line 105)

A measurement file is modelled after tab-splitting: a list of rows, each row a
list of string fields.  `pd.read_table(..., header=None)` with the C engine
takes the first row's field count as the expected width, raises a tokenizing
error on any longer row, and NaN-pads shorter rows (a missing cell is `none`).
An empty input raises `EmptyDataError`.  The subsequent
`df.columns = ['CPG_ISLANDS', patient_id]` assignment (line 118) raises a
`ValueError` unless the frame has exactly two columns. -/

inductive PyErr where
  | parserError
  | emptyDataError
  | valueError
  | indexError
  | keyError
deriving DecidableEq, Repr

abbrev RawCell := Option String

def padRow (expected : Nat) (r : List String) : List RawCell :=
  r.map some ++ List.replicate (expected - r.length) none

def readTableAux (expected : Nat) : List (List String) → Except PyErr (List (List RawCell))
  | [] => .ok []
  | r :: rs =>
    if expected < r.length then .error .parserError
    else
      match readTableAux expected rs with
      | .error e => .error e
      | .ok t => .ok (padRow expected r :: t)

def readTable : List (List String) → Except PyErr (List (List RawCell))
  | [] => .error .emptyDataError
  | r :: rs => readTableAux r.length (r :: rs)

structure RawFile where
  name : String
  rows : List (List String)
deriving DecidableEq, Repr

/-- One parsed measurement file with its column relabelled: the body of loop
iterations at lines 99-119 up to `df.columns = ['CPG_ISLANDS', patient_id]`. -/
def loadFrame (f : RawFile) : Except PyErr (List (RawCell × RawCell)) :=
  match readTable f.rows with
  | .error e => .error e
  | .ok t =>
    if (f.rows.headD []).length = 2 then
      .ok (t.map (fun r => (r.getD 0 none, r.getD 1 none)))
    else .error .valueError

structure Frame where
  sampleId : String
  rows : List (RawCell × RawCell)
deriving DecidableEq, Repr

structure WideFrame where
  sampleCols : List String
  rows : List (RawCell × List RawCell)
deriving DecidableEq, Repr

def frameToWide (f : Frame) : WideFrame :=
  { sampleCols := [f.sampleId]
    rows := f.rows.map (fun r => (r.1, [r.2])) }

/-- `pd.merge(df, curr_df, on='CPG_ISLANDS')` (line 131): inner join on the
key, left row order preserved, and pandas `_x`/`_y` suffixes applied when the
incoming sample column name already occurs in the accumulated frame. -/
def mergeFrames (w : WideFrame) (f : Frame) : WideFrame :=
  { sampleCols :=
      if w.sampleCols.contains f.sampleId then
        w.sampleCols.map (fun c => if c = f.sampleId then c ++ "_x" else c)
          ++ [f.sampleId ++ "_y"]
      else w.sampleCols ++ [f.sampleId]
    rows := w.rows.flatMap (fun kr =>
      (f.rows.filter (fun r => r.1 == kr.1)).map (fun r => (kr.1, kr.2 ++ [r.2]))) }

structure IdmapRow where
  case_id : String
  file_id : String
  file_name : String
deriving DecidableEq, Repr

/-- The sqlite database `gdc.db` at build time: each table is `none` when it
has been dropped and `some t` when present with contents `t`. -/
structure Db where
  methylation : Option WideFrame
  patientid : Option (List (String × String))
  idmap : Option (List IdmapRow)
deriving DecidableEq, Repr

/-- The per-file loop at lines 99-119: each discovered file is parsed, its
sample id is derived from the loop index and the file's base name, and one
`(file_name, patient_id)` row is appended to `df_patid`. -/
def buildFramesAux (i : Nat) : List RawFile →
    Except PyErr (List Frame × List (String × String))
  | [] => .ok ([], [])
  | f :: fs =>
    match loadFrame f with
    | .error e => .error e
    | .ok rows =>
      match buildFramesAux (i + 1) fs with
      | .error e => .error e
      | .ok (frames, patids) =>
        .ok ({ sampleId := derivedId i f.name, rows := rows } :: frames,
             (pyStem f.name, derivedId i f.name) :: patids)

/-- `create_methylation_db` in operation order: drop `methylation`, drop
`patientid`, parse every discovered file, write `patientid`, take `frames[0]`
(IndexError on an empty list), run the merge loop over all frames starting at
index 0, write `methylation`.  Returns the database state reached together
with the raised exception, if any. -/
def createMethylationDb (files : List RawFile) (db : Db) : Db × Option PyErr :=
  let db1 : Db := { db with methylation := none, patientid := none }
  match buildFramesAux 0 files with
  | .error e => (db1, some e)
  | .ok (frames, patids) =>
    let db2 : Db := { db1 with patientid := some patids }
    match frames with
    | [] => (db2, some .indexError)
    | f0 :: _ =>
      let m := frames.foldl mergeFrames (frameToWide f0)
      ({ db2 with methylation := some m }, none)

/-! ### Mapping-table loading (`create_mapping_db`, lines 142-158) -/

/-- Python's `str.rstrip(chars)`: removes trailing characters drawn from the
character SET of `chars` (not the literal suffix). -/
def pyRstrip (s : String) (chars : String) : String :=
  String.mk ((s.data.reverse.dropWhile (fun c => chars.data.contains c)).reverse)

def normalizeHeader (h : String) : String :=
  String.mk (h.data.map (fun c => if c = ' ' then '_' else c))

def stripLit : String := ".methylation_array.sesame.level3betas.txt"

/-- `create_mapping_db`: drop `idmap`, normalize header names, select the
three identifier columns (KeyError when absent), apply the `rstrip` to the
`File_Name` field of every row, write `idmap`.  No further validation is
performed. -/
def createMappingDb (headers : List String) (rows : List (List String))
    (db : Db) : Db × Option PyErr :=
  let db1 : Db := { db with idmap := none }
  let hs := headers.map normalizeHeader
  match hs.findIdx? (fun h => h == "Case_ID"), hs.findIdx? (fun h => h == "File_ID"),
      hs.findIdx? (fun h => h == "File_Name") with
  | some ci, some fi, some ni =>
    let table := rows.map (fun r =>
      { case_id := (r.get? ci).getD ""
        file_id := (r.get? fi).getD ""
        file_name := pyRstrip ((r.get? ni).getD "") stripLit : IdmapRow })
    ({ db1 with idmap := some table }, none)
  | _, _, _ => (db1, some .keyError)

/-! ### Cohort query (`app.py`, `selections` and `results` containers)

The `selections` container collects eight inputs (lines 74-85); the `results`
container (lines 96-126) runs the query.  sqlite REAL cells are `Option ℚ`
(`none` for NULL); a comparison against NULL is not satisfied. -/

structure Selections where
  cpg : ℚ
  age : Int
  gender : String
  vital_status : String
  race : String
  stage : String
  rad_th : String
  ph_th : String
deriving DecidableEq, Repr

structure ClinicalRow where
  case_submitter_id : String
  age_at_index : Int
  vital_status : String
deriving DecidableEq, Repr

/-- The persisted tables as read by `app.py`: the methylation matrix is a list
of (sample column name, cells); the row positions correspond to the
`CPG_ISLANDS` location keys. -/
structure QueryDb where
  clinical : List ClinicalRow
  idmap : List IdmapRow
  patientid : List (String × String)
  methylation : List (String × List (Option ℚ))
deriving DecidableEq, Repr

inductive QErr where
  | indexError
  | operationalError (col : String)
deriving DecidableEq, Repr

/-- The outer SELECT (lines 101-105): file names of idmap rows whose case id
satisfies the age / vital-status subquery, in table order. -/
def selectFileNames (db : QueryDb) (sel : Selections) : List String :=
  (db.idmap.filter (fun r =>
    db.clinical.any (fun c =>
      c.case_submitter_id == r.case_id
        && decide (c.age_at_index < sel.age)
        && c.vital_status == sel.vital_status))).map (fun r => r.file_name)

/-- The number of rows of a matrix column whose value strictly exceeds the
threshold: the `SELECT COUNT(*) ... WHERE <patient_id> > <CPG>` of line 120. -/
def sqlCountGt (cells : List (Option ℚ)) (t : ℚ) : Nat :=
  (cells.filter (fun v =>
    match v with
    | some x => decide (t < x)
    | none => false)).length

/-- One iteration of the `for row in rows` loop (lines 107-124): resolve the
case id (`fetchall()[0][0]`, IndexError when empty), look up the patient id in
`patientid` and skip silently when absent (`if len(data):`), then run the
count query against the matrix column named by the patient id — sqlite raises
`OperationalError: no such column` when the matrix has no such column — and
append a result row when the count is nonzero. -/
def processRow (db : QueryDb) (sel : Selections) (fn : String) :
    Except QErr (List (String × String × Nat)) :=
  match db.idmap.find? (fun r => r.file_name == fn) with
  | none => .error .indexError
  | some caseRow =>
    match db.patientid.filter (fun p => p.1 == fn) with
    | [] => .ok []
    | pr :: _ =>
      match db.methylation.find? (fun c => c.1 == pr.2) with
      | none => .error (.operationalError pr.2)
      | some col =>
        let n := sqlCountGt col.2 sel.cpg
        if n ≠ 0 then .ok [(pr.2, caseRow.case_id, n)] else .ok []

/-- The whole query of the `results` container: run `processRow` over every
selected file name, concatenating the emitted rows into `df_results`. -/
def runQuery (db : QueryDb) (sel : Selections) :
    Except QErr (List (String × String × Nat)) :=
  (selectFileNames db sel).foldlM
    (fun acc fn =>
      match processRow db sel fn with
      | .error e => .error e
      | .ok rs => .ok (acc ++ rs))
    []

/-! ## Claims -/

/-- C1: the claim states that for n measurement columns sharing an identical
location-key set the merged matrix has exactly n sample columns plus the key
column.  The merge loop (`for i in range(len(frames))`, line 129) starts at
index 0, so `frames[0]` is merged with itself and pandas renames its column to
`_x`/`_y` suffixed copies: with two input files sharing keys `k1,k2` the
produced matrix has THREE sample columns, the first sample duplicated, though
the row count and row order are as claimed.  This contradicts the code's own
comment "Take frame[0] as the base and merge the remaining frames". -/
theorem c1_selfmerge_eval :
    (createMethylationDb
      [⟨"aaa.methylation.txt", [["k1", "0.1"], ["k2", "0.2"]]⟩,
       ⟨"bbb.methylation.txt", [["k1", "0.3"], ["k2", "0.4"]]⟩]
      ⟨none, none, none⟩).1.methylation =
      some ⟨["Patient0_aaa_x", "Patient0_aaa_y", "Patient1_bbb"],
            [(some "k1", [some "0.1", some "0.1", some "0.3"]),
             (some "k2", [some "0.2", some "0.2", some "0.4"])]⟩ ∧
    (["Patient0_aaa_x", "Patient0_aaa_y", "Patient1_bbb"] : List String).length = 3 :=
  ⟨rfl, rfl⟩

/-- C4: the claim states an exact-suffix strip of
`.methylation_array.sesame.level3betas.txt`.  Line 154 uses Python's
`str.rstrip`, which strips the trailing CHARACTER SET of its argument: a name
whose stem ends in a suffix character is over-stripped (`ab3....txt` loses the
whole stem) and a name not ending with the suffix is still stripped
(`hello.txt` becomes empty), both contradicting the claim. -/
theorem c4_rstrip_eval :
    pyRstrip "ab3.methylation_array.sesame.level3betas.txt" stripLit = "" ∧
    pyRstrip "hello.txt" stripLit = "" ∧
    (createMappingDb ["Case ID", "File ID", "File Name"]
      [["c1", "f1", "ab3.methylation_array.sesame.level3betas.txt"]]
      ⟨none, none, none⟩).1.idmap = some [⟨"c1", "f1", ""⟩] :=
  ⟨rfl, rfl, rfl⟩

/-- C10 counterexample: with an empty discovered-file list the build crashes
at `frames[0]` — but only after `df_patid.to_sql` (line 122) has already
recreated the `patientid` table.  The database is left WITHOUT a
`methylation` table but WITH an empty `patientid` table, so the claim's
"neither table" is false. -/
theorem c10_counterexample :
    createMethylationDb []
      ⟨some ⟨["Old"], [(some "z", [some "9"])]⟩, some [("old", "OldPid")],
       some [⟨"c", "f", "n"⟩]⟩ =
      (⟨none, some [], some [⟨"c", "f", "n"⟩]⟩, some PyErr.indexError) ∧
    (some [] : Option (List (String × String))) ≠ none :=
  ⟨rfl, by decide⟩

/-- C10 amended: on an empty file list `create_methylation_db` drops both
tables, writes an EMPTY `patientid` table, and then fails with `IndexError`
at `frames[0]`, leaving the database with no `methylation` table and an empty
`patientid` table. -/
theorem c10_amended (db : Db) :
    createMethylationDb [] db =
      ({ db with methylation := none, patientid := some [] },
       some PyErr.indexError) :=
  rfl

/-- C2 counterexample: two files whose key sets differ (`k1,k2` versus
`k1,k3`).  The claim requires a `SchemaMismatchError`, no matrix, and the
prior persisted table untouched.  The code raises no error, silently
inner-joins (dropping the unmatched keys, only `k1` survives), persists the
result, and the previously persisted `methylation` table (here `Old`) is
dropped and replaced. -/
theorem c2_counterexample :
    createMethylationDb
      [⟨"aaa.methylation.txt", [["k1", "0.1"], ["k2", "0.2"]]⟩,
       ⟨"bbb.methylation.txt", [["k1", "0.3"], ["k3", "0.4"]]⟩]
      ⟨some ⟨["Old"], [(some "z", [some "9"])]⟩, some [("old", "OldPid")],
       some [⟨"c", "f", "n"⟩]⟩ =
      (⟨some ⟨["Patient0_aaa_x", "Patient0_aaa_y", "Patient1_bbb"],
             [(some "k1", [some "0.1", some "0.1", some "0.3"])]⟩,
        some [("aaa", "Patient0_aaa"), ("bbb", "Patient1_bbb")],
        some [⟨"c", "f", "n"⟩]⟩, none) ∧
    (some ⟨["Patient0_aaa_x", "Patient0_aaa_y", "Patient1_bbb"],
           [(some "k1", [some "0.1", some "0.1", some "0.3"])]⟩ :
        Option WideFrame) ≠
      some ⟨["Old"], [(some "z", [some "9"])]⟩ :=
  ⟨rfl, by decide⟩

/-- C2 amended: the build performs no key-set validation at all.  Whenever
every file parses (the merge loop is reached with a nonempty frame list), the
build finishes without error, unconditionally persists the merged matrix, and
the result is independent of the previously persisted `methylation` and
`patientid` tables, which are dropped at the start and replaced. -/
theorem c2_amended (files : List RawFile) (db db2 : Db) (f0 : Frame)
    (fr : List Frame) (pt : List (String × String))
    (h : buildFramesAux 0 files = .ok (f0 :: fr, pt))
    (h2 : db.idmap = db2.idmap) :
    (createMethylationDb files db).2 = none ∧
    (createMethylationDb files db).1.methylation =
      some ((f0 :: fr).foldl mergeFrames (frameToWide f0)) ∧
    (createMethylationDb files db).1 = (createMethylationDb files db2).1 := by
  cases db
  cases db2
  dsimp only at h2
  subst h2
  simp [createMethylationDb, h]

theorem c2_amended_witness :
    (createMethylationDb
      [⟨"aaa.methylation.txt", [["k1", "0.1"], ["k2", "0.2"]]⟩,
       ⟨"bbb.methylation.txt", [["k1", "0.3"], ["k3", "0.4"]]⟩]
      ⟨some ⟨["Old"], [(some "z", [some "9"])]⟩, some [("old", "OldPid")],
       some [⟨"c", "f", "n"⟩]⟩).2 = none :=
  (c2_amended
    [⟨"aaa.methylation.txt", [["k1", "0.1"], ["k2", "0.2"]]⟩,
     ⟨"bbb.methylation.txt", [["k1", "0.3"], ["k3", "0.4"]]⟩]
    ⟨some ⟨["Old"], [(some "z", [some "9"])]⟩, some [("old", "OldPid")],
     some [⟨"c", "f", "n"⟩]⟩
    ⟨none, none, some [⟨"c", "f", "n"⟩]⟩
    ⟨"Patient0_aaa", [(some "k1", some "0.1"), (some "k2", some "0.2")]⟩
    [⟨"Patient1_bbb", [(some "k1", some "0.3"), (some "k3", some "0.4")]⟩]
    [("aaa", "Patient0_aaa"), ("bbb", "Patient1_bbb")]
    rfl rfl).1

/-- C7 counterexample: a mapping input in which two rows carry the same
`File_Name` loads successfully — both rows are written to `idmap` and no
error of any kind is raised, contradicting the claimed `DuplicateKeyError`
abort. -/
theorem c7_counterexample :
    createMappingDb ["Case ID", "File ID", "File Name"]
      [["c1", "f1", "dup.methylation_array.sesame.level3betas.txt"],
       ["c2", "f2", "dup.methylation_array.sesame.level3betas.txt"]]
      ⟨none, none, none⟩ =
      (⟨none, none, some [⟨"c1", "f1", "dup"⟩, ⟨"c2", "f2", "dup"⟩]⟩, none) ∧
    (⟨"c1", "f1", "dup"⟩ : IdmapRow).file_name = (⟨"c2", "f2", "dup"⟩ : IdmapRow).file_name :=
  ⟨rfl, rfl⟩

/-- C7 amended: `create_mapping_db` performs no `file_name`-uniqueness
validation.  With the standard headers EVERY row list — duplicated file
names included — loads without error into `idmap`, each row projected to its
three identifier columns with the `rstrip` applied to the file name. -/
theorem c7_amended (rows : List (List String)) (db : Db) :
    createMappingDb ["Case ID", "File ID", "File Name"] rows db =
      ({ db with idmap := some (rows.map (fun r =>
          { case_id := (r.get? 0).getD ""
            file_id := (r.get? 1).getD ""
            file_name := pyRstrip ((r.get? 2).getD "") stripLit })) }, none) :=
  rfl

/-- C8 counterexample: the claim requires a `ParseError` for a row without
exactly two fields or with a non-numeric second field.  A row with FEWER
fields than the first row is silently NaN-padded by `pd.read_table`, and a
non-numeric second field is loaded verbatim; neither aborts the file's
load. -/
theorem c8_counterexample :
    readTable [["cg1", "0.5"], ["cg2"]] =
      .ok [[some "cg1", some "0.5"], [some "cg2", none]] ∧
    loadFrame ⟨"x.methylation.txt", [["cg1", "hello"], ["cg2", "0.5"]]⟩ =
      .ok [(some "cg1", some "hello"), (some "cg2", some "0.5")] :=
  ⟨rfl, rfl⟩

theorem readTableAux_ok (expected : Nat) :
    ∀ rows : List (List String), (∀ r ∈ rows, r.length ≤ expected) →
      ∃ t, readTableAux expected rows = .ok t := by
  intro rows
  induction rows with
  | nil => intro _; exact ⟨[], rfl⟩
  | cons r rs ih =>
    intro h
    have hr : ¬ expected < r.length := by
      have := h r (by simp)
      omega
    obtain ⟨t, ht⟩ := ih (fun x hx => h x (by simp [hx]))
    refine ⟨padRow expected r :: t, ?_⟩
    simp [readTableAux, hr, ht]

theorem readTableAux_err (expected : Nat) :
    ∀ rows : List (List String), (∃ r ∈ rows, expected < r.length) →
      readTableAux expected rows = .error .parserError := by
  intro rows
  induction rows with
  | nil => intro h; simp at h
  | cons r rs ih =>
    intro h
    by_cases hr : expected < r.length
    · simp [readTableAux, hr]
    · have : ∃ x ∈ rs, expected < x.length := by
        rcases h with ⟨x, hx, hlen⟩
        rcases List.mem_cons.mp hx with rfl | hx'
        · exact absurd hlen hr
        · exact ⟨x, hx', hlen⟩
      simp [readTableAux, hr, ih this]

/-- C8 amended: `pd.read_table` aborts a measurement file's load only when
some row has MORE fields than the file's first row; when every row has at
most that many fields the load succeeds, shorter rows being NaN-padded and
non-numeric fields loaded verbatim without error. -/
theorem c8_amended (r0 : List String) (rs : List (List String)) :
    ((∀ r ∈ rs, r.length ≤ r0.length) → ∃ t, readTable (r0 :: rs) = .ok t) ∧
    ((∃ r ∈ rs, r0.length < r.length) →
      readTable (r0 :: rs) = .error .parserError) := by
  constructor
  · intro h
    have hall : ∀ r ∈ r0 :: rs, r.length ≤ r0.length := by
      intro r hr
      rcases List.mem_cons.mp hr with rfl | hr'
      · exact Nat.le_refl _
      · exact h r hr'
    obtain ⟨t, ht⟩ := readTableAux_ok r0.length (r0 :: rs) hall
    exact ⟨t, ht⟩
  · intro h
    have : ∃ r ∈ r0 :: rs, r0.length < r.length := by
      rcases h with ⟨x, hx, hlen⟩
      exact ⟨x, by simp [hx], hlen⟩
    exact readTableAux_err r0.length (r0 :: rs) this

theorem c8_amended_witness :
    ((∃ t, readTable [["a", "b"], ["c"]] = .ok t) ∧
      readTable [["a", "b"], ["c", "d", "e"]] = .error .parserError) :=
  ⟨(c8_amended ["a", "b"] [["c"]]).1 (by simp),
   (c8_amended ["a", "b"] [["c", "d", "e"]]).2 ⟨["c", "d", "e"], by simp, by simp⟩⟩

/-- C3 counterexample: a patient id that resolves through `patientid` but has
no column in the `methylation` matrix.  The claim says the patient is
silently skipped with no error; the code interpolates the patient id as a
column name into the count query, and sqlite raises
`OperationalError: no such column`, aborting the whole query. -/
theorem c3_counterexample :
    runQuery
      ⟨[⟨"c1", 30, "Alive"⟩], [⟨"c1", "f1", "fn1"⟩], [("fn1", "PatientX")],
       [("Other", [some (1/2)])]⟩
      ⟨992/1000, 40, "Female", "Alive", "White", "I", "Yes", "Yes"⟩ =
      .error (QErr.operationalError "PatientX") :=
  rfl

/-- C3 amended: the silent skip at `if len(data):` (line 118) applies to a
file name with no `patientid` row — no result row, no error.  A patient id
that DOES resolve but has no matrix column is not skipped: the count query
fails with a no-such-column `OperationalError`. -/
theorem c3_amended (db : QueryDb) (sel : Selections) (fn : String)
    (caseRow : IdmapRow)
    (h1 : db.idmap.find? (fun r => r.file_name == fn) = some caseRow) :
    (db.patientid.filter (fun p => p.1 == fn) = [] →
      processRow db sel fn = .ok []) ∧
    (∀ pr rest, db.patientid.filter (fun p => p.1 == fn) = pr :: rest →
      db.methylation.find? (fun c => c.1 == pr.2) = none →
      processRow db sel fn = .error (.operationalError pr.2)) := by
  constructor
  · intro h2
    simp [processRow, h1, h2]
  · intro pr rest h2 h3
    simp [processRow, h1, h2, h3]

theorem c3_amended_witness :
    processRow
      ⟨[⟨"c1", 30, "Alive"⟩], [⟨"c1", "f1", "fn1"⟩], [("fn1", "PatientX")],
       [("Other", [some (1/2)])]⟩
      ⟨992/1000, 40, "Female", "Alive", "White", "I", "Yes", "Yes"⟩ "fn1" =
      .error (QErr.operationalError "PatientX") :=
  (c3_amended
    ⟨[⟨"c1", 30, "Alive"⟩], [⟨"c1", "f1", "fn1"⟩], [("fn1", "PatientX")],
     [("Other", [some (1/2)])]⟩
    ⟨992/1000, 40, "Female", "Alive", "White", "I", "Yes", "Yes"⟩ "fn1"
    ⟨"c1", "f1", "fn1"⟩ rfl).2 ("fn1", "PatientX") [] rfl rfl

theorem sqlCountGt_eq_countP (cells : List (Option ℚ)) (t : ℚ) :
    sqlCountGt cells t = (cells.filterMap id).countP (fun x => decide (t < x)) := by
  induction cells with
  | nil => rfl
  | cons c cs ih =>
    cases c with
    | none => simpa [sqlCountGt, List.filterMap_cons] using ih
    | some x =>
      by_cases hx : t < x <;>
        simp [sqlCountGt, List.filterMap_cons, List.countP_cons, hx] at ih ⊢ <;>
        omega

/-- C5: for a patient whose matrix column is scanned, the emitted count is
the number of locations (matrix rows) whose value in that column strictly
exceeds the threshold — NULL cells never count — and a result row is emitted
exactly when this count is positive (`if cpg_count:`). -/
theorem c5_count_emission (db : QueryDb) (sel : Selections) (fn : String)
    (caseRow : IdmapRow) (pr : String × String) (rest : List (String × String))
    (col : String × List (Option ℚ))
    (h1 : db.idmap.find? (fun r => r.file_name == fn) = some caseRow)
    (h2 : db.patientid.filter (fun p => p.1 == fn) = pr :: rest)
    (h3 : db.methylation.find? (fun c => c.1 == pr.2) = some col) :
    processRow db sel fn =
      .ok (if 0 < sqlCountGt col.2 sel.cpg
           then [(pr.2, caseRow.case_id, sqlCountGt col.2 sel.cpg)] else []) ∧
    sqlCountGt col.2 sel.cpg =
      (col.2.filterMap id).countP (fun x => decide (sel.cpg < x)) := by
  refine ⟨?_, sqlCountGt_eq_countP col.2 sel.cpg⟩
  by_cases hn : sqlCountGt col.2 sel.cpg = 0
  · simp [processRow, h1, h2, h3, hn]
  · have hpos : 0 < sqlCountGt col.2 sel.cpg := Nat.pos_of_ne_zero hn
    simp [processRow, h1, h2, h3, hn, hpos]

theorem c5_count_emission_witness :
    processRow
      ⟨[⟨"c1", 30, "Alive"⟩], [⟨"c1", "f1", "fn1"⟩], [("fn1", "P0")],
       [("P0", [some (1/10), some (995/1000), none])]⟩
      ⟨992/1000, 40, "Female", "Alive", "White", "I", "Yes", "Yes"⟩ "fn1" =
      .ok (if 0 < sqlCountGt [some (1/10), some (995/1000), none] (992/1000)
           then [("P0", "c1",
                  sqlCountGt [some (1/10), some (995/1000), none] (992/1000))]
           else []) :=
  (c5_count_emission
    ⟨[⟨"c1", 30, "Alive"⟩], [⟨"c1", "f1", "fn1"⟩], [("fn1", "P0")],
     [("P0", [some (1/10), some (995/1000), none])]⟩
    ⟨992/1000, 40, "Female", "Alive", "White", "I", "Yes", "Yes"⟩ "fn1"
    ⟨"c1", "f1", "fn1"⟩ ("fn1", "P0") []
    ("P0", [some (1/10), some (995/1000), none]) rfl rfl rfl).1

/-- C6: the query reads only the threshold, the age bound and the vital
status from the collected selections.  Two selections agreeing on those
three fields produce identical query results over any database, whatever the
gender, race, stage, radiation-therapy and pharmaceutical-therapy inputs. -/
theorem c6_unused_filters (db : QueryDb) (s1 s2 : Selections)
    (hcpg : s1.cpg = s2.cpg) (hage : s1.age = s2.age)
    (hvs : s1.vital_status = s2.vital_status) :
    runQuery db s1 = runQuery db s2 := by
  cases s1
  cases s2
  dsimp only at hcpg hage hvs
  subst hcpg
  subst hage
  subst hvs
  rfl

theorem c6_unused_filters_witness :
    runQuery
      ⟨[⟨"c1", 30, "Alive"⟩], [⟨"c1", "f1", "fn1"⟩], [("fn1", "P0")],
       [("P0", [some (995/1000)])]⟩
      ⟨992/1000, 40, "Female", "Alive", "White", "I", "Yes", "Yes"⟩ =
    runQuery
      ⟨[⟨"c1", 30, "Alive"⟩], [⟨"c1", "f1", "fn1"⟩], [("fn1", "P0")],
       [("P0", [some (995/1000)])]⟩
      ⟨992/1000, 40, "Male", "Alive", "Asian", "IV", "No", "No"⟩ :=
  c6_unused_filters
    ⟨[⟨"c1", 30, "Alive"⟩], [⟨"c1", "f1", "fn1"⟩], [("fn1", "P0")],
     [("P0", [some (995/1000)])]⟩
    ⟨992/1000, 40, "Female", "Alive", "White", "I", "Yes", "Yes"⟩
    ⟨992/1000, 40, "Male", "Alive", "Asian", "IV", "No", "No"⟩
    rfl rfl rfl

/-- C9: sample ids derived at lines 112-114 are `Patient<i>_<sanitized stem>`.
Distinct run ordinals give distinct ids (the ordinal is recoverable as the
digit run between the literal prefix and the first underscore); the id
contains no hyphen (each is replaced by an underscore) and starts with the
non-digit `P`; and the sanitized base name of the source file is embedded
after that underscore, so together with the run ordinal the source file of a
sample id is recoverable.  In particular `A-001.txt` and `A-002.txt` give two
distinct such ids. -/
theorem c9_sample_ids (i j : Nat) (f1 f2 : String) (h : i ≠ j) :
    derivedId i f1 ≠ derivedId j f2 ∧
    '-' ∉ (derivedId i f1).data ∧
    (derivedId i f1).data.head? = some 'P' ∧
    extractIdx (derivedId i f1) = i ∧
    extractBase (derivedId i f1) = (pyStem f1).data.map sanitizeChar :=
  ⟨derivedId_ne f1 f2 h, derivedId_no_hyphen i f1, derivedId_head i f1,
   extractIdx_derivedId i f1, extractBase_derivedId i f1⟩

theorem c9_sample_ids_witness :
    (0 : Nat) ≠ 1 ∧
    derivedId 0 "A-001.txt" ≠ derivedId 1 "A-002.txt" ∧
    '-' ∉ (derivedId 0 "A-001.txt").data :=
  ⟨by decide, (c9_sample_ids 0 1 "A-001.txt" "A-002.txt" (by decide)).1,
   (c9_sample_ids 0 1 "A-001.txt" "A-002.txt" (by decide)).2.1⟩

end GDC
